import Mathlib

/-!
Shallow embedding of the fitness and health calculator in `src/app.py`.
Floats are modelled as exact rationals (`ℚ`): every operation the
calculator performs is addition, subtraction, multiplication, division,
`max` and the Python builtin `round`, all exact on the rationals
involved. Python strings are modelled as Lean strings; the Python `None`
BMI sentinel is `Option.none`; the Python builtin `round` (bankers
rounding, round half to even, returning `int`) is `pyRound : ℚ → ℤ`.
-/

/-- The Python builtin `round` to an integer: round half to even. -/
def pyRound (q : ℚ) : ℤ :=
  let f := ⌊q⌋
  if q - f < 1/2 then f
  else if (1:ℚ)/2 < q - f then f + 1
  else if f % 2 = 0 then f else f + 1

/-- `calc_bmi` from `src/app.py` lines 10 to 14: converts height to
metres, returns `none` (Python `None`) when the height in metres is
non-positive, otherwise weight divided by the square of the height. -/
def calc_bmi (weight_kg height_cm : ℚ) : Option ℚ :=
  let h_m := height_cm / 100
  if h_m ≤ 0 then none
  else some (weight_kg / h_m ^ 2)

/-- `bmi_category` from `src/app.py` lines 16 to 26. -/
def bmi_category (bmi : Option ℚ) : String :=
  match bmi with
  | none => "Unknown"
  | some b =>
    if b < 18.5 then "Underweight"
    else if b < 25 then "Normal weight"
    else if b < 30 then "Overweight"
    else "Obesity"

/-- The Python `str.lower()` modelled over the character list of the
string (ASCII lowering via `Char.toLower`, which agrees with Python on
the gender values `"male"`, `"female"`, `"other"` the app passes in). -/
def str_lower (s : String) : String := ⟨s.data.map Char.toLower⟩

/-- `bmr_mifflin` from `src/app.py` lines 28 to 33 (Mifflin-St Jeor). -/
def bmr_mifflin (weight height age : ℚ) (gender : String) : ℚ :=
  if str_lower gender = "male" then 10*weight + 6.25*height - 5*age + 5
  else 10*weight + 6.25*height - 5*age - 161

/-- `activity_multiplier` from `src/app.py` lines 35 to 43: the Python
dict lookup with default `1.2` (dict keys are pairwise distinct, so the
`if` chain renders `mapping.get(level, 1.2)` exactly). -/
def activity_multiplier (level : String) : ℚ :=
  if level = "sedentary" then 1.2
  else if level = "light" then 1.375
  else if level = "moderate" then 1.55
  else if level = "active" then 1.725
  else if level = "very active" then 1.9
  else 1.2

/-- `calorie_target` from `src/app.py` lines 45 to 52. -/
def calorie_target (tdee : ℚ) (goal : String) : ℚ :=
  if goal = "lose" then max 1200 (tdee - 500)
  else if goal = "gain" then tdee + 300
  else tdee

/-- The record returned by `macro_split` (a Python dict with integer
values, since the Python `round` yields `int`). -/
structure MacroSplit where
  protein_g : ℤ
  fat_g : ℤ
  carb_g : ℤ
deriving DecidableEq, Repr

/-- `macro_split` from `src/app.py` lines 54 to 67. -/
def macro_split (calories protein_g_per_kg weight : ℚ) : MacroSplit :=
  let protein_g := protein_g_per_kg * weight
  let protein_cals := protein_g * 4
  let fat_cals := calories * 0.30
  let fat_g := fat_cals / 9
  let carb_cals := calories - protein_cals - fat_cals
  let carb_g := max 0 (carb_cals / 4)
  { protein_g := pyRound protein_g
    fat_g := pyRound fat_g
    carb_g := pyRound carb_g }

/-- The protein recommendation from `src/app.py` lines 113 to 118:
grams of protein per kilogram of body weight, selected by goal. -/
def protein_g_per_kg_for (goal : String) : ℚ :=
  if goal = "lose" then 1.6
  else if goal = "gain" then 1.6
  else 1.2

/-- The hydration recommendation from `src/app.py` lines 150 and 151:
`recommended_water_ml = 30 * weight` and then
`recommended_cups = round(recommended_water_ml / 250)`. -/
def recommended_cups (weight : ℚ) : ℤ :=
  let recommended_water_ml := 30 * weight
  pyRound (recommended_water_ml / 250)

/-- The `UserInput` record of the data model in section 3 of the spec:
the form fields fed into the calculation block of `src/app.py`
(lines 80 to 93). -/
structure UserInput where
  weight_kg : ℚ
  height_cm : ℚ
  age_years : ℚ
  gender : String
  exercise_level : String
  goal : String
  water_cups_reported : ℤ
deriving DecidableEq, Repr

/-- The `DerivedMetrics` record of the data model in section 3 of the
spec. -/
structure DerivedMetrics where
  bmi : Option ℚ
  bmi_category : String
  bmr_kcal : ℚ
  tdee_kcal : ℚ
  calorie_target_kcal : ℚ
  macros : MacroSplit
  recommended_water_cups : ℤ
deriving DecidableEq, Repr

/-- The calculation pipeline of `src/app.py` lines 103 to 120 plus the
hydration recommendation of lines 150 and 151: one pure function from
the input record to the derived metrics. Line 107 normalizes the gender
to `"female"` when it is neither `"male"` nor `"female"` before calling
`bmr_mifflin`; lines 113 to 118 are `protein_g_per_kg_for`. -/
def calculations (u : UserInput) : DerivedMetrics :=
  let bmi := calc_bmi u.weight_kg u.height_cm
  let category := bmi_category bmi
  let bmr := bmr_mifflin u.weight_kg u.height_cm u.age_years
    (if u.gender = "male" ∨ u.gender = "female" then u.gender else "female")
  let mult := activity_multiplier u.exercise_level
  let tdee := bmr * mult
  let cal_target := calorie_target tdee u.goal
  let macros := macro_split cal_target (protein_g_per_kg_for u.goal) u.weight_kg
  { bmi := bmi
    bmi_category := category
    bmr_kcal := bmr
    tdee_kcal := tdee
    calorie_target_kcal := cal_target
    macros := macros
    recommended_water_cups := recommended_cups u.weight_kg }

/-! Helper lemmas shared by the claim theorems. -/

theorem str_lower_male : str_lower "male" = "male" := by decide

theorem str_lower_female : str_lower "female" = "female" := by decide

theorem str_lower_other : str_lower "other" = "other" := by decide

theorem bmr_mifflin_male (w h a : ℚ) :
    bmr_mifflin w h a "male" = 10*w + 6.25*h - 5*a + 5 := by
  unfold bmr_mifflin
  rw [if_pos str_lower_male]

theorem bmr_mifflin_nonmale (w h a : ℚ) (g : String)
    (hg : str_lower g ≠ "male") :
    bmr_mifflin w h a g = 10*w + 6.25*h - 5*a - 161 := by
  unfold bmr_mifflin
  rw [if_neg hg]

theorem abs_pyRound_sub_le_half (q : ℚ) : |(pyRound q : ℚ) - q| ≤ 1/2 := by
  have h0 : (⌊q⌋ : ℚ) ≤ q := Int.floor_le q
  have h1 : q < ⌊q⌋ + 1 := Int.lt_floor_add_one q
  simp only [pyRound]
  split_ifs with hlt hgt hev
  · rw [abs_le]
    constructor <;> linarith
  · push_cast
    rw [abs_le]
    constructor <;> linarith
  · have heq : q - ⌊q⌋ = 1/2 := le_antisymm (not_lt.1 hgt) (not_lt.1 hlt)
    rw [abs_le]
    constructor <;> linarith
  · have heq : q - ⌊q⌋ = 1/2 := le_antisymm (not_lt.1 hgt) (not_lt.1 hlt)
    push_cast
    rw [abs_le]
    constructor <;> linarith

/-! Claim C1. -/

/-- C1 (counterexample): the section 8 test vector is arithmetically
wrong; `computeBMR(70, 175, 25, "male")` does not equal `1733.75`. -/
theorem C1_bmr_test_vector_counterexample :
    bmr_mifflin 70 175 25 "male" ≠ 1733.75 := by
  rw [bmr_mifflin_male]
  norm_num

/-- C1 (amended): `computeBMR(70, 175, 25, "male")` equals
`10*70 + 6.25*175 - 5*25 + 5`, whose value is `1673.75`
(not `1733.75` as the section 8 vector states). -/
theorem C1_bmr_test_vector_amended :
    bmr_mifflin 70 175 25 "male" = 10*70 + 6.25*175 - 5*25 + 5 ∧
    bmr_mifflin 70 175 25 "male" = 1673.75 := by
  constructor
  · rw [bmr_mifflin_male]
  · rw [bmr_mifflin_male]
    norm_num

/-! Claim C3. -/

/-- C3: `calorieTarget(tdee, goal)` equals `max 1200 (tdee - 500)` for
goal `lose`, `tdee + 300` for `gain` and `tdee` for `maintain`; in
particular `calorieTarget(2000, "lose") = 1500` and
`calorieTarget(1400, "lose") = 1200`. -/
theorem C3_calorie_target_spec (tdee : ℚ) :
    calorie_target tdee "lose" = max 1200 (tdee - 500) ∧
    calorie_target tdee "gain" = tdee + 300 ∧
    calorie_target tdee "maintain" = tdee ∧
    calorie_target 2000 "lose" = 1500 ∧
    calorie_target 1400 "lose" = 1200 := by
  refine ⟨rfl, rfl, rfl, ?_, ?_⟩
  · show max 1200 (2000 - 500 : ℚ) = 1500
    rw [max_eq_right (by norm_num : (1200:ℚ) ≤ 2000 - 500)]
    norm_num
  · show max 1200 (1400 - 500 : ℚ) = 1200
    rw [max_eq_left (by norm_num : (1400:ℚ) - 500 ≤ 1200)]

/-! Claim C4. -/

/-- C4: `computeBMR` follows Mifflin-St Jeor: `+5` for gender `"male"`
and `-161` for every non-male gender (`"female"` and `"other"` alike). -/
theorem C4_bmr_gender_formula (w h a : ℚ) :
    bmr_mifflin w h a "male" = 10*w + 6.25*h - 5*a + 5 ∧
    bmr_mifflin w h a "female" = 10*w + 6.25*h - 5*a - 161 ∧
    bmr_mifflin w h a "other" = 10*w + 6.25*h - 5*a - 161 :=
  ⟨bmr_mifflin_male w h a,
   bmr_mifflin_nonmale w h a "female" (by decide),
   bmr_mifflin_nonmale w h a "other" (by decide)⟩

/-! Claim C6. -/

/-- C6: `computeBMI` returns the absent marker (`none`) exactly when
`height_cm ≤ 0`, otherwise `weight_kg / (height_cm/100)^2`; it is a
total function, and the absent marker maps to category `"Unknown"`. -/
theorem C6_bmi_guard (w h : ℚ) :
    calc_bmi w h = (if h ≤ 0 then none else some (w / (h/100)^2)) ∧
    (calc_bmi w h = none ↔ h ≤ 0) ∧
    bmi_category none = "Unknown" := by
  have hiff : h / 100 ≤ 0 ↔ h ≤ 0 := by
    constructor
    · intro hle
      nlinarith [hle]
    · intro hle
      have : h / 100 ≤ 0 / 100 := by
        apply div_le_div_of_nonneg_right hle
        norm_num
      simpa using this
  have h1 : calc_bmi w h = (if h ≤ 0 then none else some (w / (h/100)^2)) := by
    simp only [calc_bmi]
    exact if_congr hiff rfl rfl
  refine ⟨h1, ?_, rfl⟩
  rw [h1]
  by_cases hc : h ≤ 0
  · simp [hc]
  · simp [hc]

/-- C6 (witness): the guard evaluated at weight 70 and height 175. -/
theorem C6_bmi_guard_witness :
    calc_bmi 70 175 = (if (175:ℚ) ≤ 0 then none else some (70 / ((175:ℚ)/100)^2)) ∧
    (calc_bmi 70 175 = none ↔ (175:ℚ) ≤ 0) ∧
    bmi_category none = "Unknown" :=
  C6_bmi_guard 70 175

/-! Claim C5. -/

/-- C5 (counterexample): for the BMI of the test vector (weight 70 kg,
height 175 cm, BMI about 22.86) the code returns the category label
`"Normal weight"`, not `"Normal"` as the spec enum names it. -/
theorem C5_category_label_counterexample :
    bmi_category (calc_bmi 70 175) ≠ "Normal" := by
  have h : calc_bmi 70 175 = some (160/7) := by
    simp only [calc_bmi]
    norm_num
  rw [h]
  have h2 : bmi_category (some (160/7)) = "Normal weight" := by
    simp only [bmi_category]
    rw [if_neg (by norm_num), if_pos (by norm_num)]
  rw [h2]
  decide

/-- C5 (amended): `categorize` returns `"Underweight"` below 18.5,
`"Normal weight"` (the code label for what the spec enum calls Normal)
on [18.5, 25), `"Overweight"` on [25, 30), `"Obesity"` at and above 30,
and `"Unknown"` for the absent marker; `computeBMI(70, 175)` is
`70 / 1.75^2 = 160/7 ≈ 22.86` and falls in the `"Normal weight"`
bracket. -/
theorem C5_category_thresholds_amended (b1 b2 b3 b4 : ℚ)
    (h1 : b1 < 18.5) (h2a : 18.5 ≤ b2) (h2b : b2 < 25)
    (h3a : 25 ≤ b3) (h3b : b3 < 30) (h4 : 30 ≤ b4) :
    bmi_category (some b1) = "Underweight" ∧
    bmi_category (some b2) = "Normal weight" ∧
    bmi_category (some b3) = "Overweight" ∧
    bmi_category (some b4) = "Obesity" ∧
    bmi_category none = "Unknown" ∧
    calc_bmi 70 175 = some (70 / 1.75^2) ∧
    bmi_category (calc_bmi 70 175) = "Normal weight" := by
  have hbmi : calc_bmi 70 175 = some (70 / 1.75^2) := by
    simp only [calc_bmi]
    norm_num
  refine ⟨?_, ?_, ?_, ?_, rfl, hbmi, ?_⟩
  · simp only [bmi_category]
    rw [if_pos h1]
  · simp only [bmi_category]
    rw [if_neg (not_lt.2 h2a), if_pos h2b]
  · simp only [bmi_category]
    rw [if_neg (not_lt.2 (by linarith : (18.5:ℚ) ≤ b3)),
        if_neg (not_lt.2 h3a), if_pos h3b]
  · simp only [bmi_category]
    rw [if_neg (not_lt.2 (by linarith : (18.5:ℚ) ≤ b4)),
        if_neg (not_lt.2 (by linarith : (25:ℚ) ≤ b4)),
        if_neg (not_lt.2 h4)]
  · rw [hbmi]
    simp only [bmi_category]
    rw [if_neg (by norm_num), if_pos (by norm_num)]

/-- C5 (witness): the thresholds evaluated at the concrete BMI values
10, 22, 27 and 35. -/
theorem C5_category_thresholds_amended_witness :
    bmi_category (some 10) = "Underweight" ∧
    bmi_category (some 22) = "Normal weight" ∧
    bmi_category (some 27) = "Overweight" ∧
    bmi_category (some 35) = "Obesity" ∧
    bmi_category none = "Unknown" ∧
    calc_bmi 70 175 = some (70 / 1.75^2) ∧
    bmi_category (calc_bmi 70 175) = "Normal weight" :=
  C5_category_thresholds_amended 10 22 27 35 (by norm_num) (by norm_num)
    (by norm_num) (by norm_num) (by norm_num) (by norm_num)

/-! Claim C7. -/

/-- C7 (counterexample): `macroSplit` does not return the raw quotient
`(0.30 × calories) / 9` as `fat_g`; at the claim's own example input
`macroSplit(2000, 1.6, 70)` the code returns the rounded integer 67
while the raw quotient is 200/3. -/
theorem C7_macro_unrounded_counterexample :
    ¬ (((macro_split 2000 1.6 70).fat_g : ℚ) = 0.30 * 2000 / 9) := by
  have h : (macro_split 2000 1.6 70).fat_g = 67 := by
    norm_num [macro_split, pyRound]
  rw [h]
  norm_num

/-- C7 (amended): `macroSplit` returns the grams rounded to integers
with the Python builtin `round`: `protein_g = round(ratio × weight)`,
`fat_g = round((0.30 × calories) / 9)` and
`carb_g = round(max(0, calories − 4×(ratio×weight) − 0.30×calories) / 4)`;
the protein ratio is 1.6 g/kg for goals lose and gain and 1.2 g/kg for
maintain; in particular `macroSplit(2000, 1.6, 70)` yields
`protein_g = 112`, `fat_g = 67`, `carb_g = 238`. -/
theorem C7_macro_split_amended (cal r w : ℚ) :
    macro_split cal r w =
      ⟨pyRound (r * w),
       pyRound ((0.30 * cal) / 9),
       pyRound (max 0 (cal - 4 * (r * w) - 0.30 * cal) / 4)⟩ ∧
    protein_g_per_kg_for "lose" = 1.6 ∧
    protein_g_per_kg_for "gain" = 1.6 ∧
    protein_g_per_kg_for "maintain" = 1.2 ∧
    macro_split 2000 1.6 70 = ⟨112, 67, 238⟩ := by
  refine ⟨?_, rfl, rfl, rfl, by norm_num [macro_split, pyRound]⟩
  simp only [macro_split, MacroSplit.mk.injEq]
  refine ⟨trivial, ?_, ?_⟩
  · congr 1
    ring
  · rw [← max_div_div_right (by norm_num : (0:ℚ) ≤ 4), zero_div]
    congr 2
    ring

/-! Claim C8. -/

/-- C8 (counterexample): the dict key in the code is `"very active"`
(with a space); the spec key `"very_active"` is not in the table, so it
falls to the default 1.2 rather than 1.9. -/
theorem C8_activity_table_counterexample :
    activity_multiplier "very_active" ≠ 1.9 := by
  have h : activity_multiplier "very_active" = 1.2 := rfl
  rw [h]
  norm_num

/-- C8 (amended): `activityMultiplier` is the fixed lookup
{sedentary: 1.2, light: 1.375, moderate: 1.55, active: 1.725,
"very active": 1.9} (the last key spelled with a space, not an
underscore), every level outside the table defaults to 1.2, and in
particular `activityMultiplier("moderate") = 1.55` and
`activityMultiplier("unknown") = 1.2`. -/
theorem C8_activity_table_amended :
    activity_multiplier "sedentary" = 1.2 ∧
    activity_multiplier "light" = 1.375 ∧
    activity_multiplier "moderate" = 1.55 ∧
    activity_multiplier "active" = 1.725 ∧
    activity_multiplier "very active" = 1.9 ∧
    activity_multiplier "unknown" = 1.2 ∧
    ∀ level : String,
      level ∉ ["sedentary", "light", "moderate", "active", "very active"] →
      activity_multiplier level = 1.2 := by
  refine ⟨rfl, rfl, rfl, rfl, rfl, rfl, ?_⟩
  intro level hl
  simp only [List.mem_cons, List.not_mem_nil, or_false, not_or] at hl
  obtain ⟨n1, n2, n3, n4, n5⟩ := hl
  simp only [activity_multiplier]
  rw [if_neg n1, if_neg n2, if_neg n3, if_neg n4, if_neg n5]

/-- C8 (witness): the default branch evaluated at the level
`"unknown"`, which is outside the table. -/
theorem C8_activity_table_amended_witness :
    activity_multiplier "unknown" = 1.2 :=
  C8_activity_table_amended.2.2.2.2.2.2 "unknown" (by decide)

/-! Claim C2. -/

/-- An in-range input (section 3 of the spec) on which the calorie
target falls far below 1200: the smallest and oldest non-male user with
a sedentary level and goal maintain. -/
def cornerInput : UserInput :=
  ⟨20, 80, 100, "female", "sedentary", "maintain", 0⟩

/-- C2 (counterexample): a `UserInput` whose fields all lie in the
section 3 ranges and whose goal is `"maintain"`, for which the computed
`calorie_target_kcal` is 46.8, far below 1200 — so the 1200 floor does
not hold for every goal. -/
theorem C2_floor_counterexample :
    (20 ≤ cornerInput.weight_kg ∧ cornerInput.weight_kg ≤ 300) ∧
    (80 ≤ cornerInput.height_cm ∧ cornerInput.height_cm ≤ 250) ∧
    (10 ≤ cornerInput.age_years ∧ cornerInput.age_years ≤ 100) ∧
    cornerInput.goal = "maintain" ∧
    (calculations cornerInput).calorie_target_kcal < 1200 := by
  have hval : (calculations cornerInput).calorie_target_kcal
      = bmr_mifflin 20 80 100 "female" * 1.2 := rfl
  refine ⟨⟨by norm_num [cornerInput], by norm_num [cornerInput]⟩,
    ⟨by norm_num [cornerInput], by norm_num [cornerInput]⟩,
    ⟨by norm_num [cornerInput], by norm_num [cornerInput]⟩, rfl, ?_⟩
  rw [hval, bmr_mifflin_nonmale _ _ _ _ (by decide)]
  norm_num

/-- C2 (amended): for every `UserInput` in the section 3 ranges the
floor of 1200 kcal holds when the goal is `"lose"` (where the code
takes `max(1200, tdee - 500)`); for goals `"maintain"` and `"gain"` no
floor is applied and the target can be below 1200. -/
theorem C2_floor_lose_amended (u : UserInput)
    (hw1 : 20 ≤ u.weight_kg) (hw2 : u.weight_kg ≤ 300)
    (hh1 : 80 ≤ u.height_cm) (hh2 : u.height_cm ≤ 250)
    (ha1 : 10 ≤ u.age_years) (ha2 : u.age_years ≤ 100)
    (hg : u.goal = "lose") :
    1200 ≤ (calculations u).calorie_target_kcal := by
  have h : (calculations u).calorie_target_kcal
      = calorie_target (bmr_mifflin u.weight_kg u.height_cm u.age_years
          (if u.gender = "male" ∨ u.gender = "female" then u.gender else "female")
          * activity_multiplier u.exercise_level) u.goal := rfl
  rw [h, hg]
  simp only [calorie_target]
  rw [if_pos trivial]
  exact le_max_left _ _

/-- C2 (witness): the amended floor evaluated on the concrete in-range
input (70 kg, 175 cm, 25 years, male, moderate, goal lose). -/
theorem C2_floor_lose_amended_witness :
    1200 ≤ (calculations ⟨70, 175, 25, "male", "moderate", "lose", 6⟩).calorie_target_kcal :=
  C2_floor_lose_amended ⟨70, 175, 25, "male", "moderate", "lose", 6⟩
    (by norm_num) (by norm_num) (by norm_num) (by norm_num)
    (by norm_num) (by norm_num) rfl

/-! Claim C9. -/

/-- C9: the calculator is deterministic: `calculations` is a pure
function of the `UserInput` record, so two runs on identical inputs
agree on the whole `DerivedMetrics` record and on every one of its
fields. -/
theorem C9_pure_deterministic (u1 u2 : UserInput) (h : u1 = u2) :
    calculations u1 = calculations u2 ∧
    (calculations u1).bmi = (calculations u2).bmi ∧
    (calculations u1).bmi_category = (calculations u2).bmi_category ∧
    (calculations u1).bmr_kcal = (calculations u2).bmr_kcal ∧
    (calculations u1).tdee_kcal = (calculations u2).tdee_kcal ∧
    (calculations u1).calorie_target_kcal = (calculations u2).calorie_target_kcal ∧
    (calculations u1).macros = (calculations u2).macros ∧
    (calculations u1).recommended_water_cups = (calculations u2).recommended_water_cups := by
  subst h
  exact ⟨rfl, rfl, rfl, rfl, rfl, rfl, rfl, rfl⟩

/-- C9 (witness): two runs on the identical concrete input
(70 kg, 175 cm, 25 years, male, moderate, maintain, 6 cups). -/
theorem C9_pure_deterministic_witness :
    calculations ⟨70, 175, 25, "male", "moderate", "maintain", 6⟩
      = calculations ⟨70, 175, 25, "male", "moderate", "maintain", 6⟩ ∧
    (calculations ⟨70, 175, 25, "male", "moderate", "maintain", 6⟩).bmi
      = (calculations ⟨70, 175, 25, "male", "moderate", "maintain", 6⟩).bmi ∧
    (calculations ⟨70, 175, 25, "male", "moderate", "maintain", 6⟩).bmi_category
      = (calculations ⟨70, 175, 25, "male", "moderate", "maintain", 6⟩).bmi_category ∧
    (calculations ⟨70, 175, 25, "male", "moderate", "maintain", 6⟩).bmr_kcal
      = (calculations ⟨70, 175, 25, "male", "moderate", "maintain", 6⟩).bmr_kcal ∧
    (calculations ⟨70, 175, 25, "male", "moderate", "maintain", 6⟩).tdee_kcal
      = (calculations ⟨70, 175, 25, "male", "moderate", "maintain", 6⟩).tdee_kcal ∧
    (calculations ⟨70, 175, 25, "male", "moderate", "maintain", 6⟩).calorie_target_kcal
      = (calculations ⟨70, 175, 25, "male", "moderate", "maintain", 6⟩).calorie_target_kcal ∧
    (calculations ⟨70, 175, 25, "male", "moderate", "maintain", 6⟩).macros
      = (calculations ⟨70, 175, 25, "male", "moderate", "maintain", 6⟩).macros ∧
    (calculations ⟨70, 175, 25, "male", "moderate", "maintain", 6⟩).recommended_water_cups
      = (calculations ⟨70, 175, 25, "male", "moderate", "maintain", 6⟩).recommended_water_cups :=
  C9_pure_deterministic ⟨70, 175, 25, "male", "moderate", "maintain", 6⟩
    ⟨70, 175, 25, "male", "moderate", "maintain", 6⟩ rfl

/-! Claim C10. -/

/-- C10: the recommended water intake reported alongside the metrics is
`round((30 × weight_kg) / 250)` cups — the 30 ml per kg rule divided
into 250 ml cups — and that integer is within half a cup of the exact
quotient, so it is a nearest integer. -/
theorem C10_water_cups_formula (u : UserInput) :
    (calculations u).recommended_water_cups = pyRound (30 * u.weight_kg / 250) ∧
    |((calculations u).recommended_water_cups : ℚ) - 30 * u.weight_kg / 250| ≤ 1/2 := by
  have h : (calculations u).recommended_water_cups
      = pyRound (30 * u.weight_kg / 250) := rfl
  refine ⟨h, ?_⟩
  rw [h]
  exact abs_pyRound_sub_le_half _
